import Mathlib

/-!
Shallow embedding of the `mundane` fixture state-machine library.

Each Rust method of shape `fn f(&mut self) -> Result<(), E>` is embedded as a
pure function `State → RResult E × State`: the first component is the returned
result, the second the state of `self` after the call.
-/

namespace Mundane

/-- Embedding of Rust `Result<(), E>`: either a unit success or a typed error. -/
inductive RResult (ε : Type) where
  | ok : RResult ε
  | err : ε → RResult ε
deriving DecidableEq

/-- Whether an `RResult` is the success value (`Result::is_ok`). -/
def RResult.isOk {ε : Type} : RResult ε → Bool
  | .ok => true
  | .err _ => false

/- ===== utils/openable.rs ===== -/

inductive OpenableError where
  | AlreadyClosed
  | AlreadyOpen
  | CannotOpen
deriving DecidableEq, Fintype

inductive OpenableState where
  | Closed
  | Open
deriving DecidableEq, Fintype

def OpenableState.is_open : OpenableState → Bool
  | .Open => true
  | .Closed => false

def OpenableState.is_closed : OpenableState → Bool
  | .Closed => true
  | .Open => false

def OpenableState.can_open (s : OpenableState) : Bool :=
  s.is_closed

def OpenableState.can_close (s : OpenableState) : Bool :=
  !s.can_open

def OpenableState.close : OpenableState → RResult OpenableError × OpenableState
  | .Open => (.ok, .Closed)
  | s => (.err .AlreadyClosed, s)

def OpenableState.open_ : OpenableState → RResult OpenableError × OpenableState
  | .Open => (.err .AlreadyOpen, .Open)
  | .Closed => (.ok, .Open)

/- ===== utils/lockable.rs (fused tri-state machine) ===== -/

inductive LockableError where
  | Locked
  | Open
  | AlreadyClosed
  | AlreadyLocked
  | AlreadyOpen
deriving DecidableEq, Fintype

inductive LockableState where
  | ClosedAndUnlocked
  | Open
  | Locked
deriving DecidableEq, Fintype

def LockableState.is_open : LockableState → Bool
  | .Open => true
  | _ => false

def LockableState.is_closed (s : LockableState) : Bool :=
  !s.is_open

def LockableState.can_open : LockableState → Bool
  | .ClosedAndUnlocked => true
  | _ => false

def LockableState.can_close (s : LockableState) : Bool :=
  s.is_open

def LockableState.is_locked : LockableState → Bool
  | .Locked => true
  | _ => false

def LockableState.close : LockableState → RResult LockableError × LockableState
  | .Open => (.ok, .ClosedAndUnlocked)
  | s => (.err .AlreadyClosed, s)

def LockableState.lock : LockableState → RResult LockableError × LockableState
  | .Open => (.err .Open, .Open)
  | .Locked => (.err .AlreadyLocked, .Locked)
  | .ClosedAndUnlocked => (.ok, .Locked)

def LockableState.open_ : LockableState → RResult LockableError × LockableState
  | .Open => (.err .AlreadyOpen, .Open)
  | .Locked => (.err .Locked, .Locked)
  | .ClosedAndUnlocked => (.ok, .Open)

/-- `let _ = self.close(); self.lock()` — the close failure is discarded. -/
def LockableState.close_and_lock (s : LockableState) : RResult LockableError × LockableState :=
  LockableState.lock (LockableState.close s).2

/- ===== utils/occupiable.rs ===== -/

inductive OccupiableError where
  | AlreadyOccupied
  | AlreadyVacant
deriving DecidableEq, Fintype

inductive OccupiableState where
  | Vacant
  | Occupied
deriving DecidableEq, Fintype

def OccupiableState.can_occupy : OccupiableState → Bool
  | .Vacant => true
  | .Occupied => false

def OccupiableState.can_vacate (s : OccupiableState) : Bool :=
  !s.can_occupy

def OccupiableState.is_occupied : OccupiableState → Bool
  | .Occupied => true
  | .Vacant => false

def OccupiableState.is_vacant (s : OccupiableState) : Bool :=
  !s.is_occupied

def OccupiableState.occupy : OccupiableState → RResult OccupiableError × OccupiableState
  | .Occupied => (.err .AlreadyOccupied, .Occupied)
  | .Vacant => (.ok, .Occupied)

def OccupiableState.vacate : OccupiableState → RResult OccupiableError × OccupiableState
  | .Vacant => (.err .AlreadyVacant, .Vacant)
  | .Occupied => (.ok, .Vacant)

/- ===== house.rs, mod doors: the fused-state Door wrapper =====
house.rs redeclares `LockableState` and `LockableError` with exactly the
variants of utils/lockable.rs; the shared inductive types above stand for
both copies, so that the two implementations can be compared variant by
variant. -/

structure House.Door where
  state : LockableState
deriving DecidableEq, Fintype

def House.Door.is_open (d : House.Door) : Bool :=
  d.state.is_open

def House.Door.is_locked (d : House.Door) : Bool :=
  d.state.is_locked

def House.Door.close (d : House.Door) : RResult LockableError × House.Door :=
  match d.state with
  | .Open => (.ok, ⟨.ClosedAndUnlocked⟩)
  | _ => (.err .AlreadyClosed, d)

def House.Door.lock (d : House.Door) : RResult LockableError × House.Door :=
  match d.state with
  | .Open => (.err .Open, d)
  | .Locked => (.err .AlreadyLocked, d)
  | .ClosedAndUnlocked => (.ok, ⟨.Locked⟩)

def House.Door.open_ (d : House.Door) : RResult LockableError × House.Door :=
  match d.state with
  | .Open => (.err .AlreadyOpen, d)
  | .Locked => (.err .Locked, d)
  | .ClosedAndUnlocked => (.ok, ⟨.Open⟩)

/-- `self.close()?; self.lock()` — unlike the utils version, a close failure
is propagated by the `?` operator, aborting before the lock step. -/
def House.Door.close_and_lock (d : House.Door) : RResult LockableError × House.Door :=
  match House.Door.close d with
  | (.ok, d1) => House.Door.lock d1
  | (.err e, d1) => (.err e, d1)

/- ===== the binary Lockable machine used by house/doors.rs ===== -/

/-- Modelled from the spec: house/doors.rs imports a binary Lockable machine
(states `Unlocked`/`Locked`, operations `lock`/`unlock`, predicates
`is_locked`/`is_unlocked`/`can_lock`/`can_unlock`, errors `AlreadyLocked`/
`AlreadyUnlocked`) from `utils::lockable`, but the `utils/lockable.rs` present
in the source tree holds the fused tri-state revision instead, so the binary
machine's code is missing from src. Its error type is reconstructed here from
spec sections 4.2 and 7. -/
inductive BinLockableError where
  | AlreadyLocked
  | AlreadyUnlocked
deriving DecidableEq, Fintype

/-- Modelled from the spec (section 4.2): the binary Lockable machine's state,
`Unlocked` (the default) or `Locked`. -/
inductive BinLockableState where
  | Unlocked
  | Locked
deriving DecidableEq, Fintype

def BinLockableState.is_locked : BinLockableState → Bool
  | .Locked => true
  | .Unlocked => false

def BinLockableState.is_unlocked (s : BinLockableState) : Bool :=
  !s.is_locked

def BinLockableState.can_lock (s : BinLockableState) : Bool :=
  s.is_unlocked

def BinLockableState.can_unlock (s : BinLockableState) : Bool :=
  !s.can_lock

/-- Modelled from the spec (section 4.2): `lock()` takes `Unlocked` to
`Locked` and succeeds; from `Locked` it fails with `AlreadyLocked`, state
unchanged. -/
def BinLockableState.lock : BinLockableState → RResult BinLockableError × BinLockableState
  | .Locked => (.err .AlreadyLocked, .Locked)
  | .Unlocked => (.ok, .Locked)

/-- Modelled from the spec (section 4.2): `unlock()` takes `Locked` to
`Unlocked` and succeeds; from `Unlocked` it fails with `AlreadyUnlocked`,
state unchanged. -/
def BinLockableState.unlock : BinLockableState → RResult BinLockableError × BinLockableState
  | .Unlocked => (.err .AlreadyUnlocked, .Unlocked)
  | .Locked => (.ok, .Unlocked)

/- ===== house/doors.rs: the composite dual-machine Door ===== -/

structure Doors.Door where
  open_state : OpenableState
  lock_state : BinLockableState
deriving DecidableEq, Fintype

def Doors.Door.is_open (d : Doors.Door) : Bool :=
  d.open_state.is_open

def Doors.Door.is_closed (d : Doors.Door) : Bool :=
  d.open_state.is_closed

def Doors.Door.can_open (d : Doors.Door) : Bool :=
  d.open_state.can_open

def Doors.Door.can_close (d : Doors.Door) : Bool :=
  d.open_state.can_close

def Doors.Door.is_locked (d : Doors.Door) : Bool :=
  d.lock_state.is_locked

def Doors.Door.is_unlocked (d : Doors.Door) : Bool :=
  d.lock_state.is_unlocked

def Doors.Door.unlock (d : Doors.Door) : RResult BinLockableError × Doors.Door :=
  let r := BinLockableState.unlock d.lock_state
  (r.1, { d with lock_state := r.2 })

/-- `let _ = self.open_state.close(); self.lock_state.lock()`. -/
def Doors.Door.lock (d : Doors.Door) : RResult BinLockableError × Doors.Door :=
  let c := OpenableState.close d.open_state
  let d1 : Doors.Door := { d with open_state := c.2 }
  let r := BinLockableState.lock d1.lock_state
  (r.1, { d1 with lock_state := r.2 })

/-- `match self.unlock() { Ok(()) => self.open_state.open(), Err(_) => Err(CannotOpen) }`. -/
def Doors.Door.open_ (d : Doors.Door) : RResult OpenableError × Doors.Door :=
  match Doors.Door.unlock d with
  | (.ok, d1) =>
    let r := OpenableState.open_ d1.open_state
    (r.1, { d1 with open_state := r.2 })
  | (.err _, d1) => (.err .CannotOpen, d1)

def Doors.Door.close (d : Doors.Door) : RResult OpenableError × Doors.Door :=
  let r := OpenableState.close d.open_state
  (r.1, { d with open_state := r.2 })

/-- The rest state of the composite Door: both owned machines at their
defaults (`Closed`, `Unlocked`). -/
def Doors.Door.initial : Doors.Door :=
  ⟨.Closed, .Unlocked⟩

/-- One public transition of the composite Door: the post-state of a call to
any of its four mutating operations. -/
inductive Doors.DoorStep : Doors.Door → Doors.Door → Prop where
  | open_ (d : Doors.Door) : Doors.DoorStep d (Doors.Door.open_ d).2
  | close (d : Doors.Door) : Doors.DoorStep d (Doors.Door.close d).2
  | lock (d : Doors.Door) : Doors.DoorStep d (Doors.Door.lock d).2
  | unlock (d : Doors.Door) : Doors.DoorStep d (Doors.Door.unlock d).2

/-- A composite Door state reachable from the rest state by public
transitions. -/
def Doors.Reachable (d : Doors.Door) : Prop :=
  Relation.ReflTransGen Doors.DoorStep Doors.Door.initial d

/-- The cross-machine invariant of the composite Door: never simultaneously
open and locked. -/
def Doors.Door.inv (d : Doors.Door) : Bool :=
  !(d.is_open && d.is_locked)

/- ===== step-indexed view of the fused machine ===== -/

/-- The primitive transition operations of the fused tri-state machine;
`close_and_lock` is their composition (a close step then a lock step). -/
inductive FusedOp where
  | openOp
  | closeOp
  | lockOp
deriving DecidableEq, Fintype

/-- The post-state of one primitive step of the fused machine. -/
def fusedNext (s : LockableState) : FusedOp → LockableState
  | .openOp => (LockableState.open_ s).2
  | .closeOp => (LockableState.close s).2
  | .lockOp => (LockableState.lock s).2

/- ===== supporting lemmas ===== -/

lemma doorStep_inv {d d' : Doors.Door} (h : Doors.DoorStep d d')
    (hd : Doors.Door.inv d = true) : Doors.Door.inv d' = true := by
  obtain ⟨os, ls⟩ := d
  cases h <;> revert hd <;> cases os <;> cases ls <;> decide

lemma reachable_inv {d : Doors.Door} (h : Doors.Reachable d) :
    Doors.Door.inv d = true := by
  induction h with
  | refl => decide
  | tail _ hstep ih => exact doorStep_inv hstep ih

/- ===== claims ===== -/

/-- Claim C1: the fused machine's `close_and_lock()` tolerates an
`AlreadyClosed` close failure and returns the `lock()` result — from
`ClosedAndUnlocked` or `Open` it succeeds ending `Locked`, from `Locked` it
fails with `AlreadyLocked`, and a second call after success fails with
`AlreadyLocked` with the state staying `Locked`. The utils/lockable.rs
machine satisfies all of this; but the house.rs fused Door, which the claim
also covers, propagates the close failure through the `?` operator, so from
`ClosedAndUnlocked` (and from `Locked`) it returns `AlreadyClosed` instead —
contradicting house.rs's own `try_to_close_and_lock` test. This theorem
evaluates both implementations at those inputs. -/
theorem C1_close_and_lock_eval :
    LockableState.close_and_lock .ClosedAndUnlocked = (.ok, .Locked)
    ∧ LockableState.close_and_lock .Open = (.ok, .Locked)
    ∧ LockableState.close_and_lock .Locked = (.err .AlreadyLocked, .Locked)
    ∧ LockableState.close_and_lock
        (LockableState.close_and_lock .ClosedAndUnlocked).2
        = (.err .AlreadyLocked, .Locked)
    ∧ House.Door.close_and_lock ⟨.ClosedAndUnlocked⟩
        = (.err .AlreadyClosed, ⟨.ClosedAndUnlocked⟩)
    ∧ House.Door.close_and_lock ⟨.Locked⟩ = (.err .AlreadyClosed, ⟨.Locked⟩) := by
  decide

/-- Claim C2, counterexample: the two fused implementations are not
observationally equivalent — from `ClosedAndUnlocked`, `close_and_lock` on
the utils machine succeeds ending `Locked`, while on the house.rs Door it
fails with `AlreadyClosed` leaving the state `ClosedAndUnlocked`. -/
theorem C2_counterexample :
    LockableState.close_and_lock .ClosedAndUnlocked = (.ok, .Locked)
    ∧ House.Door.close_and_lock ⟨.ClosedAndUnlocked⟩
        = (.err .AlreadyClosed, ⟨.ClosedAndUnlocked⟩) := by
  decide

/-- Claim C2, amended: the two fused implementations agree on `open()`,
`close()` and `lock()` from every state, and on `close_and_lock()` from
`Open`; they differ on `close_and_lock()` from `ClosedAndUnlocked` (utils
succeeds ending `Locked`, house.rs fails `AlreadyClosed` unchanged) and from
`Locked` (utils fails `AlreadyLocked`, house.rs fails `AlreadyClosed`). -/
theorem C2_equivalence_amended :
    (∀ s : LockableState,
      (House.Door.open_ ⟨s⟩).1 = (LockableState.open_ s).1
      ∧ (House.Door.open_ ⟨s⟩).2.state = (LockableState.open_ s).2
      ∧ (House.Door.close ⟨s⟩).1 = (LockableState.close s).1
      ∧ (House.Door.close ⟨s⟩).2.state = (LockableState.close s).2
      ∧ (House.Door.lock ⟨s⟩).1 = (LockableState.lock s).1
      ∧ (House.Door.lock ⟨s⟩).2.state = (LockableState.lock s).2)
    ∧ (House.Door.close_and_lock ⟨.Open⟩).1
        = (LockableState.close_and_lock .Open).1
    ∧ (House.Door.close_and_lock ⟨.Open⟩).2.state
        = (LockableState.close_and_lock .Open).2
    ∧ House.Door.close_and_lock ⟨.ClosedAndUnlocked⟩
        = (.err .AlreadyClosed, ⟨.ClosedAndUnlocked⟩)
    ∧ LockableState.close_and_lock .ClosedAndUnlocked = (.ok, .Locked)
    ∧ House.Door.close_and_lock ⟨.Locked⟩ = (.err .AlreadyClosed, ⟨.Locked⟩)
    ∧ LockableState.close_and_lock .Locked = (.err .AlreadyLocked, .Locked) := by
  decide

/-- Claim C3: on the composite dual-machine Door starting with open state
`Closed` and lock state `Locked`, one call to `open()` succeeds and the
resulting state is open `Open`, lock `Unlocked`. -/
theorem C3_open_from_closed_locked :
    Doors.Door.open_ ⟨.Closed, .Locked⟩ = (.ok, ⟨.Open, .Unlocked⟩) := by
  decide

/-- Claim C4: mutual exclusion of open and locked — for every state of the
fused tri-state machine, and for every state of the composite Door reachable
from its rest state by public transitions, `is_open` and `is_locked` are
never both true. -/
theorem C4_mutual_exclusion :
    (∀ s : LockableState, ¬(s.is_open = true ∧ s.is_locked = true))
    ∧ ∀ d : Doors.Door, Doors.Reachable d →
        ¬(d.is_open = true ∧ d.is_locked = true) := by
  constructor
  · intro s
    cases s <;> decide
  · intro d h hc
    have hi := reachable_inv h
    rw [Doors.Door.inv, hc.1, hc.2] at hi
    simp at hi

/-- Witness for C4 at the rest state of the composite Door. -/
theorem C4_witness :
    ¬(Doors.Door.is_open Doors.Door.initial = true
      ∧ Doors.Door.is_locked Doors.Door.initial = true) :=
  C4_mutual_exclusion.2 Doors.Door.initial Relation.ReflTransGen.refl

/-- Claim C5, counterexample: `Door::lock()` on the composite Door in state
open `Open`, lock `Locked` returns the error `AlreadyLocked` yet changes the
state — the open state is closed first and stays `Closed` — so a failing
transition is not always a no-op. -/
theorem C5_counterexample :
    Doors.Door.lock ⟨.Open, .Locked⟩ = (.err .AlreadyLocked, ⟨.Closed, .Locked⟩)
    ∧ (⟨.Closed, .Locked⟩ : Doors.Door) ≠ ⟨.Open, .Locked⟩ := by
  decide

/-- Claim C5, amended: every transition of every primitive machine (and of
the fused house.rs Door) either succeeds or leaves the state exactly
unchanged; for the composite Door, `close` and `unlock` are unconditionally
atomic, and `open` and `lock` are atomic from every state satisfying the
never-open-and-locked invariant, while from the invariant-violating state
open `Open`, lock `Locked`, a failing `lock()` (or `open()`) still mutates
one owned machine. -/
theorem C5_atomicity_amended :
    (∀ s : OpenableState, (OpenableState.open_ s).1.isOk = true
      ∨ (OpenableState.open_ s).2 = s)
    ∧ (∀ s : OpenableState, (OpenableState.close s).1.isOk = true
      ∨ (OpenableState.close s).2 = s)
    ∧ (∀ s : LockableState, (LockableState.open_ s).1.isOk = true
      ∨ (LockableState.open_ s).2 = s)
    ∧ (∀ s : LockableState, (LockableState.close s).1.isOk = true
      ∨ (LockableState.close s).2 = s)
    ∧ (∀ s : LockableState, (LockableState.lock s).1.isOk = true
      ∨ (LockableState.lock s).2 = s)
    ∧ (∀ s : LockableState, (LockableState.close_and_lock s).1.isOk = true
      ∨ (LockableState.close_and_lock s).2 = s)
    ∧ (∀ s : OccupiableState, (OccupiableState.occupy s).1.isOk = true
      ∨ (OccupiableState.occupy s).2 = s)
    ∧ (∀ s : OccupiableState, (OccupiableState.vacate s).1.isOk = true
      ∨ (OccupiableState.vacate s).2 = s)
    ∧ (∀ s : BinLockableState, (BinLockableState.lock s).1.isOk = true
      ∨ (BinLockableState.lock s).2 = s)
    ∧ (∀ s : BinLockableState, (BinLockableState.unlock s).1.isOk = true
      ∨ (BinLockableState.unlock s).2 = s)
    ∧ (∀ d : House.Door, (House.Door.open_ d).1.isOk = true
      ∨ (House.Door.open_ d).2 = d)
    ∧ (∀ d : House.Door, (House.Door.close d).1.isOk = true
      ∨ (House.Door.close d).2 = d)
    ∧ (∀ d : House.Door, (House.Door.lock d).1.isOk = true
      ∨ (House.Door.lock d).2 = d)
    ∧ (∀ d : House.Door, (House.Door.close_and_lock d).1.isOk = true
      ∨ (House.Door.close_and_lock d).2 = d)
    ∧ (∀ d : Doors.Door, (Doors.Door.close d).1.isOk = true
      ∨ (Doors.Door.close d).2 = d)
    ∧ (∀ d : Doors.Door, (Doors.Door.unlock d).1.isOk = true
      ∨ (Doors.Door.unlock d).2 = d)
    ∧ (∀ d : Doors.Door, Doors.Door.inv d = true →
        (Doors.Door.open_ d).1.isOk = true ∨ (Doors.Door.open_ d).2 = d)
    ∧ (∀ d : Doors.Door, Doors.Door.inv d = true →
        (Doors.Door.lock d).1.isOk = true ∨ (Doors.Door.lock d).2 = d) := by
  decide

/-- Witness for C5 at the composite Door state open `Closed`, lock `Locked`,
which satisfies the invariant. -/
theorem C5_witness :
    (Doors.Door.lock ⟨.Closed, .Locked⟩).1.isOk = true
    ∨ (Doors.Door.lock ⟨.Closed, .Locked⟩).2 = ⟨.Closed, .Locked⟩ :=
  C5_atomicity_amended.2.2.2.2.2.2.2.2.2.2.2.2.2.2.2.2.2
    ⟨.Closed, .Locked⟩ (by decide)

/-- Claim C6: the binary Lockable machine's `unlock()` takes `Locked` to
`Unlocked` with success and fails with `AlreadyUnlocked` from `Unlocked`
leaving the state unchanged; the composite Door's `unlock()` delegates to it,
touching only the lock state. -/
theorem C6_unlock :
    BinLockableState.unlock .Locked = (.ok, .Unlocked)
    ∧ BinLockableState.unlock .Unlocked = (.err .AlreadyUnlocked, .Unlocked)
    ∧ ∀ d : Doors.Door, Doors.Door.unlock d
        = ((BinLockableState.unlock d.lock_state).1,
           ⟨d.open_state, (BinLockableState.unlock d.lock_state).2⟩) := by
  decide

/-- Claim C7: the composite Door's `lock()` first closes the owned Openable
state discarding the result, then delegates to the owned binary Lockable
state's `lock()`; in particular from open `Open`, lock `Unlocked` it succeeds
ending open `Closed`, lock `Locked`. -/
theorem C7_door_lock :
    (∀ d : Doors.Door, Doors.Door.lock d
      = ((BinLockableState.lock d.lock_state).1,
         ⟨(OpenableState.close d.open_state).2,
          (BinLockableState.lock d.lock_state).2⟩))
    ∧ Doors.Door.lock ⟨.Open, .Unlocked⟩ = (.ok, ⟨.Closed, .Locked⟩) := by
  decide

/-- Claim C8: in the fused machine's primitive step relation (`open`, `close`,
`lock` steps; `close_and_lock` is a close step followed by a lock step, as the
last conjunct states), `Locked` is entered only from `ClosedAndUnlocked` by a
lock step, `Open` is entered only from `ClosedAndUnlocked` by an open step,
and no single step goes directly between `Open` and `Locked`. -/
theorem C8_entry_transitions :
    (∀ s : LockableState, ∀ op : FusedOp, fusedNext s op = .Locked →
      s = .Locked ∨ (s = .ClosedAndUnlocked ∧ op = .lockOp))
    ∧ (∀ s : LockableState, ∀ op : FusedOp, fusedNext s op = .Open →
      s = .Open ∨ (s = .ClosedAndUnlocked ∧ op = .openOp))
    ∧ (∀ op : FusedOp, fusedNext .Open op ≠ .Locked
        ∧ fusedNext .Locked op ≠ .Open)
    ∧ (∀ s : LockableState,
        LockableState.close_and_lock s
          = LockableState.lock (fusedNext s .closeOp)) := by
  decide

/-- Witness for C8: the lock step from `ClosedAndUnlocked` enters `Locked`. -/
theorem C8_witness :
    LockableState.ClosedAndUnlocked = .Locked
    ∨ (LockableState.ClosedAndUnlocked = .ClosedAndUnlocked
       ∧ FusedOp.lockOp = .lockOp) :=
  C8_entry_transitions.1 .ClosedAndUnlocked .lockOp (by decide)

/-- Claim C9: for each primitive machine, a transition succeeds exactly when
its guard predicate held (`open` iff `can_open`, `close` iff `can_close`,
fused `lock` iff the state was `ClosedAndUnlocked`, `occupy` iff `can_occupy`,
`vacate` iff `can_vacate`), and when the guard is false the transition fails
leaving the state unchanged. -/
theorem C9_guards :
    (∀ s : OpenableState,
      (OpenableState.open_ s).1.isOk = s.can_open
      ∧ (OpenableState.close s).1.isOk = s.can_close
      ∧ (s.can_open = false → (OpenableState.open_ s).1.isOk = false
          ∧ (OpenableState.open_ s).2 = s)
      ∧ (s.can_close = false → (OpenableState.close s).1.isOk = false
          ∧ (OpenableState.close s).2 = s))
    ∧ (∀ s : LockableState,
      (LockableState.open_ s).1.isOk = s.can_open
      ∧ (LockableState.close s).1.isOk = s.can_close
      ∧ (LockableState.lock s).1.isOk = decide (s = .ClosedAndUnlocked)
      ∧ (s.can_open = false → (LockableState.open_ s).1.isOk = false
          ∧ (LockableState.open_ s).2 = s)
      ∧ (s.can_close = false → (LockableState.close s).1.isOk = false
          ∧ (LockableState.close s).2 = s)
      ∧ (s ≠ .ClosedAndUnlocked → (LockableState.lock s).1.isOk = false
          ∧ (LockableState.lock s).2 = s))
    ∧ (∀ s : OccupiableState,
      (OccupiableState.occupy s).1.isOk = s.can_occupy
      ∧ (OccupiableState.vacate s).1.isOk = s.can_vacate
      ∧ (s.can_occupy = false → (OccupiableState.occupy s).1.isOk = false
          ∧ (OccupiableState.occupy s).2 = s)
      ∧ (s.can_vacate = false → (OccupiableState.vacate s).1.isOk = false
          ∧ (OccupiableState.vacate s).2 = s)) := by
  decide

/-- Witness for C9: opening an already-open Openable machine fails and leaves
it `Open`. -/
theorem C9_witness :
    (OpenableState.open_ .Open).1.isOk = false
    ∧ (OpenableState.open_ .Open).2 = .Open :=
  (C9_guards.1 .Open).2.2.1 (by decide)

/-- Claim C10: the primitive Openable machine never produces `CannotOpen` —
its `open()` returns success or `AlreadyOpen`, its `close()` returns success
or `AlreadyClosed` — nor does the composite Door's `close()` (which delegates
to it); `CannotOpen` is produced by the composite Door's `open()`, here from
the rest state `Closed`, `Unlocked` where the internal unlock step fails. -/
theorem C10_cannot_open_provenance :
    (∀ s : OpenableState,
      ((OpenableState.open_ s).1 = .ok
        ∨ (OpenableState.open_ s).1 = .err .AlreadyOpen)
      ∧ ((OpenableState.close s).1 = .ok
        ∨ (OpenableState.close s).1 = .err .AlreadyClosed))
    ∧ (∀ d : Doors.Door, (Doors.Door.close d).1 ≠ .err .CannotOpen)
    ∧ Doors.Door.open_ ⟨.Closed, .Unlocked⟩
        = (.err .CannotOpen, ⟨.Closed, .Unlocked⟩) := by
  decide

end Mundane
